import Mathlib

/-!
# Conversation Session Controller — shallow embedding

This file embeds, in Lean, the state and operations of the chat client's
Conversation Session Controller (the chat page: `fetchHistory`,
`startNewConversation`, `handleSendMessage`, and the message rendering
transform) together with the intake form's `handleSubmit`, and proves
properties of those embeddings.

Modelling conventions:
* React `useState` values become fields of an explicit `SessionState` record;
  each event handler becomes a pure function from the pre-state (plus the
  data the handler reads: the freshly generated uuid, the current timestamp,
  and the network response) to the post-state and the list of network calls
  it issued.
* `localStorage` is the `stored` field of the state.
* A `fetch` outcome is an inductive: a successful decoded body, an HTTP
  error status (`!response.ok`), or a thrown exception (network failure /
  body-decoding failure), matching the `try`/`catch` structure of the code.
* JavaScript truthiness on strings (`!s` is true exactly for the empty
  string, `null` and `undefined`) is `jsFalsy` on `Option String`.
-/

namespace ChatClient

/-- JavaScript `String.prototype.trim` removes leading and trailing
whitespace; this predicate covers the WhiteSpace and LineTerminator
characters relevant here (space, tab, LF, VT, FF, CR). -/
def isJsWhitespace (c : Char) : Bool :=
  c = ' ' || c = '\t' || c = '\n' || c = '\x0b' || c = '\x0c' || c = '\r'

/-- Trim on the character list: drop whitespace from both ends. -/
def jsTrimList (cs : List Char) : List Char :=
  ((cs.dropWhile isJsWhitespace).reverse.dropWhile isJsWhitespace).reverse

/-- JavaScript `s.trim()`. -/
def jsTrim (s : String) : String :=
  String.mk (jsTrimList s.data)

/-- JavaScript falsiness of an optional string: `null`/`undefined` and the
empty string are falsy (`!conversationId`, `!convId`). -/
def jsFalsy : Option String → Bool
  | none => true
  | some s => s == ""

/-- JavaScript `x || null` applied to an optional string field
(`msg.attachment || null`): an absent or empty-string attachment becomes
`null`; a non-empty string passes through. -/
def attachOrNull : Option String → Option String
  | none => none
  | some s => if s = "" then none else some s

/-- A transcript message as stored in the `messages` state:
`{ id, sender, content, timestamp, attachment }`. The sender is the string
the code compares against (`"user"` / `"assistant"`). -/
structure Message where
  id : String
  sender : String
  content : String
  timestamp : String
  attachment : Option String
  deriving DecidableEq

/-- The intake form's `data` state: four string fields. -/
structure IntakeData where
  name : String
  age : String
  gender : String
  orientation : String
  deriving DecidableEq

/-- A network request issued by the client, with the data that identifies
it: history fetch (GET `/chat/{id}/history`), conversation creation from
the chat page (POST `/chat/new`, empty body), conversation creation from
the intake form (POST `/chat/new` with the profile body), and message send
(POST `/chat/{id}/send` with `{ content }`). -/
inductive NetCall where
  | historyFetch (convId : String)
  | newConversation
  | createWithProfile (d : IntakeData)
  | send (convId : String) (content : String)
  deriving DecidableEq

/-- The session state owned by the chat page: the `useState` hooks
`userInput`, `messages`, `conversationId`, `isLoading`, `error`, plus the
durable store entry `localStorage["chatConversationId"]` as `stored`. -/
structure SessionState where
  userInput : String
  messages : List Message
  conversationId : Option String
  isLoading : Bool
  error : Option String
  stored : Option String
  deriving DecidableEq

/-! ## handleSendMessage -/

/-- Outcome of the send request's error paths: a non-2xx response whose
body may or may not parse as JSON and whose parsed object may or may not
carry a `detail` string (`body = none`: `response.json()` rejected;
`body = some none`: parsed but no `detail` field; `body = some (some d)`:
parsed with `detail` `d`, possibly the empty string), or a thrown
exception (network failure) whose `Error.message` is `message`. -/
inductive SendFailure where
  | httpError (status : Nat) (body : Option (Option String))
  | networkError (message : String)
  deriving DecidableEq

/-- Outcome of the send request: decoded `payload`
`{ id, content, timestamp, attachment? }` on success, or a failure. -/
inductive SendResult where
  | ok (id content timestamp : String) (attachment : Option String)
  | fail (f : SendFailure)
  deriving DecidableEq

/-- The `err.message` the catch block receives and stores via
`setError(err.message || "Failed to get a response. Please try again.")`.
For a non-2xx response the code throws
`new Error(errorData.detail || "HTTP error! status: " + status)` where
`errorData` is the parsed body or, when parsing rejects, the fallback
`{ detail: "Unknown server error during send." }`; `||` falls through on a
missing or empty `detail`. -/
def sendErrMessage : SendFailure → String
  | .httpError _ none => "Unknown server error during send."
  | .httpError status (some none) => "HTTP error! status: " ++ toString status
  | .httpError status (some (some d)) =>
      if d = "" then "HTTP error! status: " ++ toString status else d
  | .networkError m =>
      if m = "" then "Failed to get a response. Please try again." else m

/-- The optimistic user message built by `handleSendMessage`:
`{ id: uuidv4(), sender: "user", content: userInput.trim(),
timestamp: new Date().toISOString() }` (no attachment field). -/
def optimisticUserMessage (input freshId now : String) : Message :=
  { id := freshId, sender := "user", content := jsTrim input,
    timestamp := now, attachment := none }

/-- The assistant message built from the send response payload:
`{ id, sender: "assistant", content, timestamp, attachment: a || null }`. -/
def assistantMessage (id content timestamp : String)
    (attachment : Option String) : Message :=
  { id := id, sender := "assistant", content := content,
    timestamp := timestamp, attachment := attachOrNull attachment }

/-- The guard `if (!userInput.trim() || !conversationId) return;`. -/
def sendGuardFails (s : SessionState) : Bool :=
  jsTrim s.userInput == "" || jsFalsy s.conversationId

/-- The state right after the synchronous part of `handleSendMessage`, while
the send request is in flight: the optimistic user message appended,
`userInput` cleared, loading set, error cleared. -/
def sendOptimistic (s : SessionState) (freshId now : String) : SessionState :=
  { s with
    messages := s.messages ++ [optimisticUserMessage s.userInput freshId now],
    userInput := "", isLoading := true, error := none }

/-- `handleSendMessage`: no-op when the guard fires; otherwise appends the
optimistic message, clears the input, issues the send request, and on
completion either appends the assistant message (success) or removes the
optimistic message by its id, restores the saved `currentInput`, and sets
the error (failure); `finally` clears loading. Returns the final state and
the list of network calls issued. -/
def handleSendMessage (s : SessionState) (freshId now : String)
    (resp : SendResult) : SessionState × List NetCall :=
  if sendGuardFails s then (s, [])
  else
    let userMessage := optimisticUserMessage s.userInput freshId now
    let currentInput := s.userInput
    let opt := sendOptimistic s freshId now
    let call := NetCall.send (s.conversationId.getD "") userMessage.content
    match resp with
    | .ok id content timestamp attachment =>
        ({ opt with
            messages := opt.messages ++
              [assistantMessage id content timestamp attachment],
            isLoading := false },
         [call])
    | .fail f =>
        ({ opt with
            messages := opt.messages.filter (fun m => m.id ≠ userMessage.id),
            userInput := currentInput,
            error := some (sendErrMessage f),
            isLoading := false },
         [call])

/-! ## startNewConversation -/

/-- Outcome of the POST `/chat/new` request from the chat page: the decoded
`payload.conversation_id` on success, or any failure (non-2xx response,
network error, body-decoding error — the catch block treats them alike). -/
inductive NewConvResult where
  | ok (newId : String)
  | failure
  deriving DecidableEq

/-- The state after the synchronous opening of `startNewConversation`,
while its request is in flight: `setIsLoading(true)`, `setError(null)`,
`setMessages([])` all run before the `fetch`. -/
def startNewConvSyncPart (s : SessionState) : SessionState :=
  { s with isLoading := true, error := none, messages := [] }

/-- `startNewConversation`: clears messages and error and sets loading,
POSTs `/chat/new`; on success stores `payload.conversation_id` in state and
`localStorage`; on failure sets the error, sets `conversationId` to null
and removes the stored id; `finally` clears loading. -/
def startNewConversation (s : SessionState) (resp : NewConvResult) :
    SessionState × List NetCall :=
  let pre := startNewConvSyncPart s
  match resp with
  | .ok newId =>
      ({ pre with
          conversationId := some newId, stored := some newId,
          isLoading := false },
       [NetCall.newConversation])
  | .failure =>
      ({ pre with
          error := some "Could not start new conversation.",
          conversationId := none, stored := none, isLoading := false },
       [NetCall.newConversation])

/-! ## fetchHistory -/

/-- A message as decoded from the history response `payload` array. -/
structure BackendMessage where
  id : String
  sender : String
  content : String
  timestamp : String
  attachment : Option String
  deriving DecidableEq

/-- The transcript message built from one history entry: fields copied,
`attachment: msg.attachment || null`. -/
def historyMessage (m : BackendMessage) : Message :=
  { id := m.id, sender := m.sender, content := m.content,
    timestamp := m.timestamp, attachment := attachOrNull m.attachment }

/-- Outcome of the GET `/chat/{id}/history` request: the decoded `payload`
array on success, a non-2xx status, or a thrown exception (network failure
/ body-decoding failure). -/
inductive HistoryResult where
  | ok (payload : List BackendMessage)
  | httpError (status : Nat)
  | networkError
  deriving DecidableEq

/-- `fetchHistory(convId)`: no-op when `convId` is falsy; otherwise sets
loading, clears the error, issues the GET. On success the transcript is
replaced by the mapped payload. A 404 clears the transcript and returns
(no error set). Any other non-2xx status throws, and the catch block,
shared with network errors, sets the error, clears the transcript, and
invokes `startNewConversation()` (the returned `Bool` records that
invocation); `finally` clears loading. -/
def fetchHistory (s : SessionState) (convId : Option String)
    (resp : HistoryResult) : SessionState × Bool × List NetCall :=
  if jsFalsy convId then (s, false, [])
  else
    let pre := { s with isLoading := true, error := none }
    let call := NetCall.historyFetch (convId.getD "")
    match resp with
    | .ok payload =>
        ({ pre with
            messages := payload.map historyMessage,
            isLoading := false },
         false, [call])
    | .httpError status =>
        if status = 404 then
          ({ pre with messages := [], isLoading := false }, false, [call])
        else
          ({ pre with
              error := some "Failed to load message history. Starting a new chat.",
              messages := [], isLoading := false },
           true, [call])
    | .networkError =>
        ({ pre with
            error := some "Failed to load message history. Starting a new chat.",
            messages := [], isLoading := false },
         true, [call])

/-! ## Intake form handleSubmit -/

/-- `isDataComplete`: all four fields non-empty after trimming. -/
def isDataComplete (d : IntakeData) : Bool :=
  jsTrim d.name != "" && jsTrim d.age != "" &&
  jsTrim d.gender != "" && jsTrim d.orientation != ""

/-- What the intake form's submit handler did: whether the synchronous
validation alert fired, the network calls issued, the stored conversation
id afterwards, and whether navigation to the chat page happened. -/
structure SubmitOutcome where
  alerted : Bool
  calls : List NetCall
  storedAfter : Option String
  navigated : Bool
  deriving DecidableEq

/-- The intake form's `handleSubmit`: when `isDataComplete` fails, alert
and return (no request); otherwise POST `/chat/new` with the profile body;
on success store `payload.conversation_id` and navigate to the chat page;
on failure remove the stored id. -/
def handleSubmit (d : IntakeData) (stored : Option String)
    (resp : NewConvResult) : SubmitOutcome :=
  if !isDataComplete d then
    { alerted := true, calls := [], storedAfter := stored, navigated := false }
  else
    match resp with
    | .ok newId =>
        { alerted := false, calls := [NetCall.createWithProfile d],
          storedAfter := some newId, navigated := true }
    | .failure =>
        { alerted := false, calls := [NetCall.createWithProfile d],
          storedAfter := none, navigated := false }

/-! ## Message rendering transform -/

/-- JavaScript `String.prototype.replaceAll(pat, repl)` on character
lists, for a non-empty `pat`: left-to-right, non-overlapping. -/
def listReplaceAll (pat repl : List Char) : List Char → List Char
  | [] => []
  | c :: rest =>
    if h : pat ≠ [] ∧ pat.isPrefixOf (c :: rest) then
      repl ++ listReplaceAll pat repl ((c :: rest).drop pat.length)
    else
      c :: listReplaceAll pat repl rest
  termination_by cs => cs.length
  decreasing_by
    · simp only [List.length_drop, List.length_cons]
      have hlen : 1 ≤ pat.length := by
        cases pat with
        | nil => exact absurd rfl h.1
        | cons p ps => simp
      omega
    · simp

/-- The text the chat page renders for a message bubble:
`msg.content.trim().replaceAll("\n", "").replaceAll("  ", " ")`. -/
def renderedContent (content : String) : String :=
  String.mk (listReplaceAll [' ', ' '] [' ']
    (listReplaceAll ['\n'] [] (jsTrimList content.data)))

/-- Stated from the claim's words: the content trimmed, with every newline
character removed, and with each occurrence of two consecutive spaces
replaced by a single space (left to right). Written independently of
`renderedContent` to compare against it. -/
def collapseSpacePairs : List Char → List Char
  | [] => []
  | [c] => [c]
  | c1 :: c2 :: rest =>
    if c1 = ' ' ∧ c2 = ' ' then ' ' :: collapseSpacePairs rest
    else c1 :: collapseSpacePairs (c2 :: rest)

/-- Stated from the claim's words: trim, drop newlines, collapse each
occurrence of two consecutive spaces to one. -/
def claimedDisplayTransform (content : String) : String :=
  String.mk (collapseSpacePairs
    ((jsTrimList content.data).filter (fun c => c ≠ '\n')))

/-! ## Asynchronous interleaving of the restore-failure path

`fetchHistory`'s catch block calls `startNewConversation()` without
awaiting it. The page is single-threaded, so the interleaving of the two
async functions is deterministic; `restoreFailureTrace` linearises it as
the sequence of states at each suspension point, each paired with the set
of requests in flight at that moment. -/

/-- A session state together with the network requests in flight. -/
structure AsyncState where
  sess : SessionState
  inFlight : List NetCall
  deriving DecidableEq

/-- The state after the mount effect finds a stored id `cid`:
`setConversationId(storedConversationId)` then `fetchHistory(...)`. -/
def restoreMountState (cid : String) : SessionState :=
  { userInput := "", messages := [], conversationId := some cid,
    isLoading := false, error := none, stored := some cid }

/-- The deterministic interleaving when a stored id `cid` is restored, the
history fetch fails with non-404 status `status`, and the automatically
started new conversation succeeds with `newId`:
1. mount state;
2. `fetchHistory`'s synchronous opening ran and its GET is in flight;
3. the GET resolved with `!response.ok`, the catch set the error and
   cleared messages, the un-awaited `startNewConversation()` ran its
   synchronous opening (loading set, error cleared, messages cleared) and
   initiated its POST, then suspended; control returned to `fetchHistory`,
   whose `finally` ran `setIsLoading(false)` — so the POST is in flight
   while `isLoading` is `false`;
4. the POST resolved, the new id was stored, and both `finally` blocks
   have run. -/
def restoreFailureTrace (cid : String) (status : Nat) (newId : String) :
    List AsyncState :=
  let s0 := restoreMountState cid
  let s1 := { s0 with isLoading := true, error := none }
  let s2 :=
    { startNewConvSyncPart
        { s1 with
          error := some "Failed to load message history. Starting a new chat.",
          messages := [] } with
      isLoading := false }
  let s3 := { s2 with
                conversationId := some newId, stored := some newId,
                isLoading := false }
  if status = 404 then []
  else
    [ { sess := s0, inFlight := [] },
      { sess := s1, inFlight := [NetCall.historyFetch cid] },
      { sess := s2, inFlight := [NetCall.newConversation] },
      { sess := s3, inFlight := [] } ]

/-! ## Concrete instances used by the witnesses -/

/-- A concrete session state used to instantiate the universally
quantified theorems below: an active conversation, one prior message,
non-empty input. -/
def sampleState : SessionState :=
  { userInput := " hello there "
    messages := [{ id := "m0", sender := "assistant", content := "hi",
                   timestamp := "t0", attachment := none }]
    conversationId := some "conv-1"
    isLoading := false
    error := none
    stored := some "conv-1" }

/-- An intake profile with an empty age field. -/
def incompleteIntake : IntakeData :=
  { name := "Jo", age := "", gender := "male", orientation := "straight" }

/-! ## Supporting lemmas -/

theorem listReplaceAll_newline (cs : List Char) :
    listReplaceAll ['\n'] [] cs = cs.filter (fun c => c ≠ '\n') := by
  induction cs with
  | nil => simp [listReplaceAll]
  | cons c rest ih =>
    rw [listReplaceAll]
    by_cases hc : c = '\n'
    · subst hc
      simp [List.isPrefixOf, ih]
    · simp [List.isPrefixOf, ih, beq_iff_eq, Ne.symm hc, List.filter_cons, hc]

theorem listReplaceAll_twoSpaces (cs : List Char) :
    listReplaceAll [' ', ' '] [' '] cs = collapseSpacePairs cs := by
  induction cs using collapseSpacePairs.induct with
  | case1 => simp [listReplaceAll, collapseSpacePairs]
  | case2 c =>
    rw [listReplaceAll]
    by_cases hc : c = ' '
    · subst hc
      simp [List.isPrefixOf, listReplaceAll, collapseSpacePairs]
    · simp [List.isPrefixOf, listReplaceAll, collapseSpacePairs, beq_iff_eq, Ne.symm hc]
  | case3 c1 c2 rest hcc ih =>
    rw [listReplaceAll]
    obtain ⟨h1, h2⟩ := hcc
    subst h1; subst h2
    simp [List.isPrefixOf, collapseSpacePairs, ih]
  | case4 c1 c2 rest hcc ih =>
    rw [listReplaceAll]
    have hp : [' ', ' '].isPrefixOf (c1 :: c2 :: rest) = false := by
      simp [List.isPrefixOf, beq_iff_eq]
      intro h1 h2
      exact hcc ⟨h1.symm, h2.symm⟩
    simp [hp, collapseSpacePairs, hcc, ih]

example : claimedDisplayTransform " a\n b  c   " = "a b c" := by decide

/-! ## Claim theorems -/



/-- C1 (amended): on send failure the transcript and the input are restored
and the error is `sendErrMessage`; the detail string is used exactly when
the body parsed with a non-empty `detail`. -/
theorem send_failure_rollback (s : SessionState) (freshId now : String)
    (f : SendFailure)
    (hin : jsTrim s.userInput ≠ "") (hcid : jsFalsy s.conversationId = false)
    (hfresh : ∀ m ∈ s.messages, m.id ≠ freshId) :
    (handleSendMessage s freshId now (.fail f)).1.messages = s.messages ∧
    (handleSendMessage s freshId now (.fail f)).1.userInput = s.userInput ∧
    (handleSendMessage s freshId now (.fail f)).1.error
      = some (sendErrMessage f) ∧
    (∀ st d, d ≠ "" →
      sendErrMessage (.httpError st (some (some d))) = d) ∧
    (∀ st, sendErrMessage (.httpError st none)
      = "Unknown server error during send.") := by
  have hguard : sendGuardFails s = false := by
    simp [sendGuardFails, hin, hcid]
  have hmsgs : (s.messages ++
        [optimisticUserMessage s.userInput freshId now]).filter
        (fun m => m.id ≠ freshId) = s.messages := by
    rw [List.filter_append]
    have h1 : s.messages.filter (fun m => m.id ≠ freshId) = s.messages :=
      List.filter_eq_self.mpr (fun m hm => by simp [hfresh m hm])
    simp [h1, optimisticUserMessage]
    exact fun a ha => hfresh a ha
  refine ⟨?_, ?_, ?_, ?_, ?_⟩
  · simp [handleSendMessage, hguard, sendOptimistic, optimisticUserMessage] at hmsgs ⊢
    exact hmsgs
  · simp [handleSendMessage, hguard, sendOptimistic]
  · simp [handleSendMessage, hguard, sendOptimistic]
  · intro st d hd; simp [sendErrMessage, hd]
  · intro st; simp [sendErrMessage]

theorem send_failure_rollback_witness :
    (handleSendMessage sampleState "u9" "t9"
        (.fail (.networkError "boom"))).1.messages = sampleState.messages ∧
    (handleSendMessage sampleState "u9" "t9"
        (.fail (.networkError "boom"))).1.userInput = sampleState.userInput ∧
    (handleSendMessage sampleState "u9" "t9"
        (.fail (.networkError "boom"))).1.error
      = some (sendErrMessage (.networkError "boom")) ∧
    sendErrMessage (.httpError 500 (some (some "oops"))) = "oops" ∧
    sendErrMessage (.httpError 500 none)
      = "Unknown server error during send." :=
  match send_failure_rollback sampleState "u9" "t9" (.networkError "boom")
      (by decide) (by decide) (by decide) with
  | ⟨a, b, c, d, e⟩ => ⟨a, b, c, d 500 "oops" (by decide), e 500⟩

/-- C1 counterexample: with a 500 response whose body parses with
`detail` equal to the empty string, the stored error is the generic
HTTP-status message, not the backend's detail string. -/
theorem send_error_empty_detail_counterexample :
    (handleSendMessage sampleState "u1" "t1"
        (.fail (.httpError 500 (some (some ""))))).1.error
      = some "HTTP error! status: 500" ∧
    ("HTTP error! status: 500" : String) ≠ "" := by
  refine ⟨by decide, by decide⟩

/-- C2: StartNewConversation issues the creation request; on success the
state has an empty transcript, the new id active and persisted; on failure
the error is set and the stored id is removed. -/
theorem start_new_conversation_spec (s : SessionState) (newId : String) :
    ((startNewConversation s (.ok newId)).1.messages = [] ∧
     (startNewConversation s (.ok newId)).1.conversationId = some newId ∧
     (startNewConversation s (.ok newId)).1.stored = some newId ∧
     (startNewConversation s (.ok newId)).2 = [NetCall.newConversation]) ∧
    ((startNewConversation s .failure).1.error
        = some "Could not start new conversation." ∧
     (startNewConversation s .failure).1.conversationId = none ∧
     (startNewConversation s .failure).1.stored = none ∧
     (startNewConversation s .failure).2 = [NetCall.newConversation]) := by
  simp [startNewConversation, startNewConvSyncPart]

/-- C3: the optimistic user message (trimmed content, fresh id, current
timestamp) is appended while the request is in flight and the input is
cleared; on success exactly the backend assistant message is appended,
preserving id, content, timestamp and attachment. -/
theorem send_message_success_appends (s : SessionState)
    (freshId now id content timestamp : String) (attachment : Option String)
    (hin : jsTrim s.userInput ≠ "") (hcid : jsFalsy s.conversationId = false)
    (hatt : attachment ≠ some "") :
    (sendOptimistic s freshId now).messages
      = s.messages ++ [optimisticUserMessage s.userInput freshId now] ∧
    (sendOptimistic s freshId now).userInput = "" ∧
    optimisticUserMessage s.userInput freshId now
      = { id := freshId, sender := "user", content := jsTrim s.userInput,
          timestamp := now, attachment := none } ∧
    (handleSendMessage s freshId now
        (.ok id content timestamp attachment)).1.messages
      = s.messages ++ [optimisticUserMessage s.userInput freshId now,
          assistantMessage id content timestamp attachment] ∧
    assistantMessage id content timestamp attachment
      = { id := id, sender := "assistant", content := content,
          timestamp := timestamp, attachment := attachment } ∧
    (handleSendMessage s freshId now
        (.ok id content timestamp attachment)).2
      = [NetCall.send (s.conversationId.getD "") (jsTrim s.userInput)] := by
  have hguard : sendGuardFails s = false := by
    simp [sendGuardFails, hin, hcid]
  have hattach : attachOrNull attachment = attachment := by
    cases attachment with
    | none => rfl
    | some a =>
      have : a ≠ "" := fun h => hatt (by rw [h])
      simp [attachOrNull, this]
  refine ⟨by simp [sendOptimistic], by simp [sendOptimistic], rfl, ?_, ?_, ?_⟩
  · simp [handleSendMessage, hguard, sendOptimistic]
  · simp [assistantMessage, hattach]
  · simp [handleSendMessage, hguard, optimisticUserMessage]

theorem send_message_success_appends_witness :
    (handleSendMessage sampleState "u9" "t9"
        (.ok "a1" "sure" "t10" (some "http://x/v.mp4"))).1.messages
      = sampleState.messages ++
        [optimisticUserMessage sampleState.userInput "u9" "t9",
         assistantMessage "a1" "sure" "t10" (some "http://x/v.mp4")] ∧
    (sendOptimistic sampleState "u9" "t9").userInput = "" :=
  match send_message_success_appends sampleState "u9" "t9" "a1" "sure" "t10"
      (some "http://x/v.mp4") (by decide) (by decide) (by decide) with
  | ⟨_, b, _, d, _, _⟩ => ⟨d, b⟩

/-- C4 (violation): in the linearised restore-failure execution, the
automatically started new-conversation request is in flight while
`isLoading` is false — `fetchHistory`'s catch invokes
`startNewConversation()` without awaiting it, so `fetchHistory`'s
`finally` clears the flag while that POST is outstanding. -/
theorem loading_false_during_recovery_request :
    ∃ a ∈ restoreFailureTrace "conv-A" 500 "conv-B",
      a.inFlight ≠ [] ∧ a.sess.isLoading = false := by decide

/-- C5: a non-404 HTTP failure or a network failure of the history fetch
sets the error, clears the transcript, and invokes startNewConversation. -/
theorem history_failure_recovery (s : SessionState) (cid : String)
    (status : Nat) (hcid : cid ≠ "") (hstatus : status ≠ 404) :
    ((fetchHistory s (some cid) (.httpError status)).1.error
        = some "Failed to load message history. Starting a new chat." ∧
     (fetchHistory s (some cid) (.httpError status)).1.messages = [] ∧
     (fetchHistory s (some cid) (.httpError status)).2.1 = true ∧
     (fetchHistory s (some cid) (.httpError status)).2.2
        = [NetCall.historyFetch cid]) ∧
    ((fetchHistory s (some cid) .networkError).1.error
        = some "Failed to load message history. Starting a new chat." ∧
     (fetchHistory s (some cid) .networkError).1.messages = [] ∧
     (fetchHistory s (some cid) .networkError).2.1 = true) := by
  simp [fetchHistory, jsFalsy, hcid, hstatus]

theorem history_failure_recovery_witness :
    (fetchHistory sampleState (some "conv-1") (.httpError 500)).1.error
      = some "Failed to load message history. Starting a new chat." ∧
    (fetchHistory sampleState (some "conv-1") (.httpError 500)).1.messages
      = [] ∧
    (fetchHistory sampleState (some "conv-1") (.httpError 500)).2.1 = true :=
  match history_failure_recovery sampleState "conv-1" 500
      (by decide) (by decide) with
  | ⟨⟨a, b, c, _⟩, _⟩ => ⟨a, b, c⟩

/-- C6: with empty-after-trim input or no active conversation id,
handleSendMessage leaves the state unchanged and issues no request. -/
theorem send_message_noop (s : SessionState) (freshId now : String)
    (resp : SendResult)
    (h : jsTrim s.userInput = "" ∨ s.conversationId = none) :
    handleSendMessage s freshId now resp = (s, []) := by
  have hguard : sendGuardFails s = true := by
    rcases h with h | h <;> simp [sendGuardFails, jsFalsy, h]
  simp [handleSendMessage, hguard]

theorem send_message_noop_witness :
    handleSendMessage { sampleState with userInput := "   " } "u9" "t9"
        (.ok "a1" "x" "t" none)
      = ({ sampleState with userInput := "   " }, []) ∧
    handleSendMessage { sampleState with conversationId := none } "u9" "t9"
        (.ok "a1" "x" "t" none)
      = ({ sampleState with conversationId := none }, []) :=
  ⟨send_message_noop { sampleState with userInput := "   " } "u9" "t9"
      (.ok "a1" "x" "t" none) (Or.inl (by decide)),
   send_message_noop { sampleState with conversationId := none } "u9" "t9"
      (.ok "a1" "x" "t" none) (Or.inr rfl)⟩

/-- C7: a 404 on the history fetch leaves an empty transcript and no error
for that path, and does not invoke startNewConversation. -/
theorem history_404_resets_quietly (s : SessionState) (cid : String)
    (hcid : cid ≠ "") :
    (fetchHistory s (some cid) (.httpError 404)).1.messages = [] ∧
    (fetchHistory s (some cid) (.httpError 404)).1.error = none ∧
    (fetchHistory s (some cid) (.httpError 404)).2.1 = false := by
  simp [fetchHistory, jsFalsy, hcid]

theorem history_404_resets_quietly_witness :
    (fetchHistory sampleState (some "conv-1")
        (.httpError 404)).1.messages = [] ∧
    (fetchHistory sampleState (some "conv-1")
        (.httpError 404)).1.error = none ∧
    (fetchHistory sampleState (some "conv-1")
        (.httpError 404)).2.1 = false :=
  history_404_resets_quietly sampleState "conv-1" (by decide)


/-- C8: with any intake field empty after trimming, submit alerts and
issues no request, leaving the stored id as it was. -/
theorem intake_incomplete_no_request (d : IntakeData)
    (stored : Option String) (resp : NewConvResult)
    (h : jsTrim d.name = "" ∨ jsTrim d.age = "" ∨
         jsTrim d.gender = "" ∨ jsTrim d.orientation = "") :
    handleSubmit d stored resp
      = { alerted := true, calls := [], storedAfter := stored, navigated := false } := by
  have hc : isDataComplete d = false := by
    rcases h with h | h | h | h <;> simp [isDataComplete, h]
  simp [handleSubmit, hc]

theorem intake_incomplete_no_request_witness :
    handleSubmit incompleteIntake none (.ok "c9")
      = { alerted := true, calls := [], storedAfter := none, navigated := false } :=
  intake_incomplete_no_request incompleteIntake
    none (.ok "c9") (Or.inr (Or.inl (by decide)))

/-- C9: startNewConversation clears the transcript synchronously, before
its request resolves, and the transcript is empty in the final state for
every outcome — a failed request does not restore the previous one. -/
theorem start_new_conversation_clears_messages (s : SessionState)
    (resp : NewConvResult) :
    (startNewConvSyncPart s).messages = [] ∧
    (startNewConversation s resp).1.messages = [] := by
  cases resp <;> simp [startNewConvSyncPart, startNewConversation]

/-- C10: the bubble text equals the claimed transform (trim, drop
newlines, replace each two-space occurrence by one space) for every
content, and it can differ from the stored content. -/
theorem rendered_content_transform :
    (∀ content : String,
        renderedContent content = claimedDisplayTransform content) ∧
    renderedContent "a\nb" ≠ "a\nb" := by
  have key : ∀ content : String,
      renderedContent content = claimedDisplayTransform content := by
    intro c
    unfold renderedContent claimedDisplayTransform
    rw [listReplaceAll_newline, listReplaceAll_twoSpaces]
  refine ⟨key, ?_⟩
  rw [key]
  decide

end ChatClient
